import Mathlib

/-!
Verification of the POWDER USRP resource-request profiles.

The repository holds two near-duplicate GENI profile scripts:
  profile.py            (general deployment of srsLTE over rooftop X310s and
                         remote-aggregate B210/NUC fixed endpoints)
  profiles/srslte-otalab.py  (OTA-lab variant with frequency validation and
                         spectrum reservations)

Each script declares a parameter schema, binds parameters, validates the
frequency parameters (OTA-lab only), then builds a request tree of raw PCs,
links, interfaces and spectrum reservations, and prints it.

The shallow embedding below mirrors the request-building functions of the two
scripts.  Frequencies are modelled as rationals (the portal BANDWIDTH type is
a decimal number).  The portal context object is external to the repository;
per the profile scripts and their documentation, reportError stores an error
and verifyParameters halts the script when any error was stored, so a run of
a script is modelled as Except: an error list when validation failed (nothing
built), or the finished request tree.
-/

namespace Powder

/-- IPv4 address with netmask, as produced by rspec.IPv4Address. -/
structure IPv4Address where
  address : String
  netmask : String
deriving DecidableEq, Repr

/-- Boot-time execution service, as produced by rspec.Execute. -/
structure Service where
  shell : String
  command : String
deriving DecidableEq, Repr

/-- Network interface on a node, as produced by node.addInterface; it records
the interface name, the owning node and the addresses added to it. -/
structure Interface where
  ifname : String
  nodeName : String
  addresses : List IPv4Address
deriving DecidableEq, Repr

/-- Endpoint attached to a link: either an explicit node interface added with
link.addInterface, or a whole node attached with link.addNode (identified by
its node name). -/
inductive LinkMember where
  | iface : Interface → LinkMember
  | node : String → LinkMember
deriving DecidableEq, Repr

/-- Named link with a bandwidth attribute and its attached endpoints. -/
structure Link where
  name : String
  bandwidth : Nat
  members : List LinkMember
deriving DecidableEq, Repr

/-- Raw PC resource, as produced by request.RawPC and subsequent attribute
assignments.  Unset attributes are none. -/
structure RawPC where
  name : String
  hardware_type : Option String
  disk_image : Option String
  component_manager_id : Option String
  component_id : Option String
  services : List Service
  interfaces : List Interface
deriving DecidableEq, Repr

/-- Spectrum reservation, as produced by request.requestSpectrum. -/
structure SpectrumRequest where
  freq_min : ℚ
  freq_max : ℚ
  power : ℚ
deriving DecidableEq, Repr

/-- Request tree accumulating nodes, links and spectrum reservations. -/
structure Request where
  nodes : List RawPC
  links : List Link
  spectra : List SpectrumRequest
deriving DecidableEq, Repr

/-- Fresh request as returned by portal.context.makeRequestRSpec. -/
def emptyRequest : Request := ⟨[], [], []⟩

/-- Structured parameter error, as produced by portal.ParameterError: a
message and the list of offending parameter names. -/
structure ParameterError where
  message : String
  params : List String
deriving DecidableEq, Repr

/-- Interface named usrp_if on the given node, carrying the static address
192.168.40.1 with netmask 255.255.255.0; both profile scripts add exactly
this interface to each X310-paired compute node. -/
def mkUsrpIf (nodeName : String) : Interface :=
  { ifname := "usrp_if"
    nodeName := nodeName
    addresses := [⟨"192.168.40.1", "255.255.255.0"⟩] }

namespace Otalab

/-! Embedding of profiles/srslte-otalab.py (the OTA-lab variant). -/

/-- GLOBALS.BIN_PATH. -/
def BIN_PATH : String := "/local/repository/bin"

/-- GLOBALS.DEFAULT_SRSRAN_HASH. -/
def DEFAULT_SRSRAN_HASH : String := "release_22_04"

/-- GLOBALS.SRSLTE_IMG. -/
def SRSLTE_IMG : String := "urn:publicid:IDN+emulab.net+image+PowderTeam:U18LL-SRSLTE"

/-- GLOBALS.MNGR_ID. -/
def MNGR_ID : String := "urn:publicid:IDN+emulab.net+authority+cm"

/-- GLOBALS.SRS_DEPLOY_SCRIPT, i.e. os.path.join of BIN_PATH and deploy-srs.sh. -/
def SRS_DEPLOY_SCRIPT : String := BIN_PATH ++ "/deploy-srs.sh"

/-- Bound parameters of the OTA-lab profile: the compute node type paired with
the X310 radios, the radio_name field of each selected X310 entry, the
node_id field of each selected B210 entry, and the four frequency
parameters. -/
structure Params where
  x310_pair_nodetype : String
  x310_radios : List String
  b210_nodes : List String
  ul_freq_min : ℚ
  ul_freq_max : ℚ
  dl_freq_min : ℚ
  dl_freq_max : ℚ
deriving DecidableEq, Repr

/-- ParameterError reported when an uplink frequency bound is out of band. -/
def uplinkBandError : ParameterError :=
  ⟨"CBAND uplink frequencies must be between 3358 and 3600 MHz",
   ["ul_freq_min", "ul_freq_max"]⟩

/-- ParameterError reported when the uplink bounds are separated by less than
1 MHz. -/
def uplinkSepError : ParameterError :=
  ⟨"Minimum and maximum frequencies must be separated by at least 1 MHz",
   ["ul_freq_min", "ul_freq_max"]⟩

/-- ParameterError reported when a downlink frequency bound is out of band. -/
def downlinkBandError : ParameterError :=
  ⟨"CBAND downlink frequencies must be between 3358 and 3600 MHz",
   ["dl_freq_min", "dl_freq_max"]⟩

/-- ParameterError reported when the downlink bounds are separated by less
than 1 MHz. -/
def downlinkSepError : ParameterError :=
  ⟨"Minimum and maximum frequencies must be separated by at least 1 MHz",
   ["dl_freq_min", "dl_freq_max"]⟩

/-- Frequency parameter checks of the OTA-lab script: the four sequential if
statements, each calling portal.context.reportError, which appends the error
to the list the portal context accumulates. -/
def checkFrequencyParams (p : Params) : List ParameterError :=
  (if p.ul_freq_min < 3358 ∨ p.ul_freq_min > 3600
      ∨ p.ul_freq_max < 3358 ∨ p.ul_freq_max > 3600
   then [uplinkBandError] else [])
  ++ (if p.ul_freq_max - p.ul_freq_min < 1 then [uplinkSepError] else [])
  ++ (if p.dl_freq_min < 3358 ∨ p.dl_freq_min > 3600
         ∨ p.dl_freq_max < 3358 ∨ p.dl_freq_max > 3600
      then [downlinkBandError] else [])
  ++ (if p.dl_freq_max - p.dl_freq_min < 1 then [downlinkSepError] else [])

/-- Compute node of an X310 pair: request.RawPC of the radio name with the
-comp suffix, with hardware type, disk image, manager id, the four services
and the usrp_if interface added by x310_node_pair. -/
def x310CompNode (nodetype radio_name : String) : RawPC :=
  { name := radio_name ++ "-comp"
    hardware_type := some nodetype
    disk_image := some SRSLTE_IMG
    component_manager_id := some MNGR_ID
    component_id := none
    services :=
      [⟨"bash", "/local/repository/bin/add-nat-and-ip-forwarding.sh"⟩,
       ⟨"bash", "/local/repository/bin/tune-cpu.sh"⟩,
       ⟨"bash", "/local/repository/bin/tune-sdr-iface.sh"⟩,
       ⟨"bash", SRS_DEPLOY_SCRIPT ++ " " ++ DEFAULT_SRSRAN_HASH⟩]
    interfaces := [mkUsrpIf (radio_name ++ "-comp")] }

/-- Radio of an X310 pair: request.RawPC of the radio name with the -radio
suffix, carrying the component id and manager id, no services and no
explicit interfaces. -/
def x310RadioNode (radio_name : String) : RawPC :=
  { name := radio_name ++ "-radio"
    hardware_type := none
    disk_image := none
    component_manager_id := some "urn:publicid:IDN+emulab.net+authority+cm"
    component_id := some radio_name
    services := []
    interfaces := [] }

/-- Link of an X310 pair after x310_node_pair finishes: named radio-link-idx,
bandwidth 10*1000*1000, with the compute node usrp_if interface added by
addInterface and the radio node added by addNode. -/
def radioLink (idx : Nat) (radio_name : String) : Link :=
  { name := "radio-link-" ++ toString idx
    bandwidth := 10 * 1000 * 1000
    members := [LinkMember.iface (mkUsrpIf (radio_name ++ "-comp")),
                LinkMember.node (radio_name ++ "-radio")] }

/-- Net effect of one x310_node_pair call on the request: the link and the
two raw PCs it creates are appended to the request. -/
def x310_node_pair (nodetype : String) (idx : Nat) (radio_name : String)
    (req : Request) : Request :=
  { req with
    links := req.links ++ [radioLink idx radio_name]
    nodes := req.nodes ++ [x310CompNode nodetype radio_name,
                           x310RadioNode radio_name] }

/-- Fixed-endpoint node of a B210 pair: request.RawPC of the node id with the
-b210 suffix, with component id, disk image and the three services added by
b210_nuc_pair. -/
def b210NucNode (node_id : String) : RawPC :=
  { name := node_id ++ "-b210"
    hardware_type := none
    disk_image := some SRSLTE_IMG
    component_manager_id := none
    component_id := some node_id
    services :=
      [⟨"bash", "/local/repository/bin/update-config-files.sh"⟩,
       ⟨"bash", "/local/repository/bin/tune-cpu.sh"⟩,
       ⟨"bash", SRS_DEPLOY_SCRIPT ++ " " ++ DEFAULT_SRSRAN_HASH⟩]
    interfaces := [] }

/-- Net effect of one b210_nuc_pair call on the request (the idx argument is
unused by the script as well). -/
def b210_nuc_pair (_idx : Nat) (node_id : String) (req : Request) : Request :=
  { req with nodes := req.nodes ++ [b210NucNode node_id] }

/-- Loop "for i, x310_radio in enumerate(params.x310_radios)" calling
x310_node_pair, starting from enumeration index idx. -/
def x310Loop (nodetype : String) (idx : Nat) (radios : List String)
    (req : Request) : Request :=
  match radios with
  | [] => req
  | r :: rest => x310Loop nodetype (idx + 1) rest (x310_node_pair nodetype idx r req)

/-- Loop "for i, b210_node in enumerate(params.b210_nodes)" calling
b210_nuc_pair, starting from enumeration index idx. -/
def b210Loop (idx : Nat) (nodes : List String) (req : Request) : Request :=
  match nodes with
  | [] => req
  | n :: rest => b210Loop (idx + 1) rest (b210_nuc_pair idx n req)

/-- request.requestSpectrum appends a (min, max, power) reservation. -/
def requestSpectrum (lo hi power : ℚ) (req : Request) : Request :=
  { req with spectra := req.spectra ++ [⟨lo, hi, power⟩] }

/-- Whole OTA-lab script after parameter binding: run the frequency checks;
portal.context.verifyParameters halts the script with the collected errors
when any were reported (portal semantics; no request is made), otherwise the
request is built by the two loops, the two spectrum reservations are added,
and the finished tree is printed. -/
def runProfile (p : Params) : Except (List ParameterError) Request :=
  match checkFrequencyParams p with
  | [] =>
    let req := emptyRequest
    let req := x310Loop p.x310_pair_nodetype 0 p.x310_radios req
    let req := b210Loop 0 p.b210_nodes req
    let req := requestSpectrum p.ul_freq_min p.ul_freq_max 0 req
    let req := requestSpectrum p.dl_freq_min p.dl_freq_max 0 req
    Except.ok req
  | e :: rest => Except.error (e :: rest)

end Otalab

namespace Gen

/-! Embedding of profile.py (the general deployment variant; no frequency
parameters, no spectrum reservations). -/

/-- Disk image used by both node kinds of profile.py. -/
def UBUNTU_IMG : String := "urn:publicid:IDN+emulab.net+image+emulab-ops:UBUNTU18-64-STD"

/-- Bound parameters of profile.py: the compute node type, the token, user
and password strings, the radio_name field of each selected X310 entry and
the aggregate_id field of each selected B210 entry. -/
structure Params where
  x310_pair_nodetype : String
  token : String
  user : String
  password : String
  x310_radios : List String
  b210_nodes : List String
deriving DecidableEq, Repr

/-- Command string of the setup.sh service: the literal script path followed
by the token, user and password values joined by single spaces, exactly as
the string concatenation in the script builds it. -/
def setupCommand (token user password : String) : String :=
  "/local/repository/bin/setup.sh " ++ token ++ " " ++ user ++ " " ++ password

/-- Compute node of an X310 pair in profile.py: RawPC of the radio name with
the -comp suffix, hardware type, Ubuntu disk image, manager id, five
services (the last being setup.sh with the interpolated credentials) and the
usrp_if interface. -/
def x310CompNode (nodetype token user password radio_name : String) : RawPC :=
  { name := radio_name ++ "-comp"
    hardware_type := some nodetype
    disk_image := some UBUNTU_IMG
    component_manager_id := some "urn:publicid:IDN+emulab.net+authority+cm"
    component_id := none
    services :=
      [⟨"bash", "/local/repository/bin/add-nat-and-ip-forwarding.sh"⟩,
       ⟨"bash", "/local/repository/bin/update-config-files.sh"⟩,
       ⟨"bash", "/local/repository/bin/tune-cpu.sh"⟩,
       ⟨"bash", "/local/repository/bin/tune-sdr-iface.sh"⟩,
       ⟨"bash", setupCommand token user password⟩]
    interfaces := [mkUsrpIf (radio_name ++ "-comp")] }

/-- Radio of an X310 pair in profile.py: RawPC of the radio name with the
-x310 suffix, carrying the component id and manager id. -/
def x310RadioNode (radio_name : String) : RawPC :=
  { name := radio_name ++ "-x310"
    hardware_type := none
    disk_image := none
    component_manager_id := some "urn:publicid:IDN+emulab.net+authority+cm"
    component_id := some radio_name
    services := []
    interfaces := [] }

/-- Link of an X310 pair in profile.py after x310_node_pair finishes: named
radio-link-idx, bandwidth 10*1000*1000, with the compute node usrp_if
interface and the radio node. -/
def radioLink (idx : Nat) (radio_name : String) : Link :=
  { name := "radio-link-" ++ toString idx
    bandwidth := 10 * 1000 * 1000
    members := [LinkMember.iface (mkUsrpIf (radio_name ++ "-comp")),
                LinkMember.node (radio_name ++ "-x310")] }

/-- Net effect of one profile.py x310_node_pair call on the request. -/
def x310_node_pair (nodetype token user password : String) (idx : Nat)
    (radio_name : String) (req : Request) : Request :=
  { req with
    links := req.links ++ [radioLink idx radio_name]
    nodes := req.nodes ++ [x310CompNode nodetype token user password radio_name,
                           x310RadioNode radio_name] }

/-- Fixed-endpoint node of a B210 pair in profile.py: RawPC named
b210-aggregate-nuc2, managed by the remote aggregate authority, component id
nuc2, Ubuntu disk image and three services (the last being setup.sh with the
interpolated credentials). -/
def b210NucNode (aggregate_id token user password : String) : RawPC :=
  { name := "b210-" ++ aggregate_id ++ "-nuc2"
    hardware_type := none
    disk_image := some UBUNTU_IMG
    component_manager_id :=
      some ("urn:publicid:IDN+" ++ aggregate_id ++ ".powderwireless.net+authority+cm")
    component_id := some "nuc2"
    services :=
      [⟨"bash", "/local/repository/bin/update-config-files.sh"⟩,
       ⟨"bash", "/local/repository/bin/tune-cpu.sh"⟩,
       ⟨"bash", setupCommand token user password⟩]
    interfaces := [] }

/-- Net effect of one profile.py b210_nuc_pair call on the request (the idx
argument is unused by the script as well). -/
def b210_nuc_pair (token user password : String) (_idx : Nat)
    (aggregate_id : String) (req : Request) : Request :=
  { req with nodes := req.nodes ++ [b210NucNode aggregate_id token user password] }

/-- Loop over enumerate(params.x310_radios) in profile.py. -/
def x310Loop (nodetype token user password : String) (idx : Nat)
    (radios : List String) (req : Request) : Request :=
  match radios with
  | [] => req
  | r :: rest =>
    x310Loop nodetype token user password (idx + 1) rest
      (x310_node_pair nodetype token user password idx r req)

/-- Loop over enumerate(params.b210_nodes) in profile.py. -/
def b210Loop (token user password : String) (idx : Nat) (nodes : List String)
    (req : Request) : Request :=
  match nodes with
  | [] => req
  | n :: rest =>
    b210Loop token user password (idx + 1) rest
      (b210_nuc_pair token user password idx n req)

/-- Whole profile.py script after parameter binding: no custom checks, so the
request is always built by the two loops and printed. -/
def runProfile (p : Params) : Request :=
  let req := emptyRequest
  let req := x310Loop p.x310_pair_nodetype p.token p.user p.password 0 p.x310_radios req
  let req := b210Loop p.token p.user p.password 0 p.b210_nodes req
  req

end Gen

/-! Helper lemmas. -/

/-- Membership in a one-element conditional list. -/
theorem mem_ite_singleton {α : Type} {c : Prop} [Decidable c] {e x : α} :
    (e ∈ if c then [x] else []) ↔ c ∧ e = x := by
  split_ifs with h <;> simp [h]

/-- Emptiness of a one-element conditional list. -/
theorem ite_singleton_eq_nil {α : Type} {c : Prop} [Decidable c] {x : α} :
    ((if c then [x] else []) = []) ↔ ¬c := by
  split_ifs with h <;> simp [h]

/-- Closed form of the OTA-lab X310 loop: it appends, per selected radio, the
compute node and the radio node, and one link per selected radio carrying the
running enumeration index. -/
theorem otalab_x310Loop_eq (nt : String) (rs : List String) (idx : Nat)
    (req : Request) :
    Otalab.x310Loop nt idx rs req =
      { req with
        nodes := req.nodes
          ++ rs.flatMap (fun r => [Otalab.x310CompNode nt r, Otalab.x310RadioNode r])
        links := req.links
          ++ (List.enumFrom idx rs).map (fun p => Otalab.radioLink p.1 p.2) } := by
  induction rs generalizing idx req with
  | nil => simp [Otalab.x310Loop]
  | cons r rest ih =>
    simp [Otalab.x310Loop, Otalab.x310_node_pair, ih, List.enumFrom,
      List.flatMap_cons, List.append_assoc]

/-- Closed form of the OTA-lab B210 loop: it appends one fixed-endpoint node
per selected B210. -/
theorem otalab_b210Loop_eq (ns : List String) (idx : Nat) (req : Request) :
    Otalab.b210Loop idx ns req =
      { req with nodes := req.nodes ++ ns.map Otalab.b210NucNode } := by
  induction ns generalizing idx req with
  | nil => simp [Otalab.b210Loop]
  | cons n rest ih =>
    simp [Otalab.b210Loop, Otalab.b210_nuc_pair, ih, List.append_assoc]

/-- Closed form of the profile.py X310 loop. -/
theorem gen_x310Loop_eq (nt tok u pw : String) (rs : List String) (idx : Nat)
    (req : Request) :
    Gen.x310Loop nt tok u pw idx rs req =
      { req with
        nodes := req.nodes
          ++ rs.flatMap (fun r => [Gen.x310CompNode nt tok u pw r, Gen.x310RadioNode r])
        links := req.links
          ++ (List.enumFrom idx rs).map (fun p => Gen.radioLink p.1 p.2) } := by
  induction rs generalizing idx req with
  | nil => simp [Gen.x310Loop]
  | cons r rest ih =>
    simp [Gen.x310Loop, Gen.x310_node_pair, ih, List.enumFrom,
      List.flatMap_cons, List.append_assoc]

/-- Closed form of the profile.py B210 loop. -/
theorem gen_b210Loop_eq (tok u pw : String) (ns : List String) (idx : Nat)
    (req : Request) :
    Gen.b210Loop tok u pw idx ns req =
      { req with
        nodes := req.nodes ++ ns.map (fun a => Gen.b210NucNode a tok u pw) } := by
  induction ns generalizing idx req with
  | nil => simp [Gen.b210Loop]
  | cons n rest ih =>
    simp [Gen.b210Loop, Gen.b210_nuc_pair, ih, List.append_assoc]

/-- Second components of an enumerated list are members of the list. -/
theorem snd_mem_of_mem_enumFrom {α : Type} {p : Nat × α} {n : Nat}
    {l : List α} (h : p ∈ List.enumFrom n l) : p.2 ∈ l := by
  induction l generalizing n with
  | nil => simp [List.enumFrom] at h
  | cons a rest ih =>
    rw [List.enumFrom] at h
    rcases List.mem_cons.mp h with h1 | h2
    · subst h1; exact List.mem_cons_self _ _
    · exact List.mem_cons_of_mem _ (ih h2)

/-! Claim theorems. -/

/-- C2: every OTA-lab frequency parameter set whose four frequency bounds lie
within [3358, 3600] and whose uplink and downlink separations are at least
1 MHz passes validation with no reported parameter error, and the request is
built and emitted. -/
theorem otalab_valid_freqs_build (p : Otalab.Params)
    (h1 : 3358 ≤ p.ul_freq_min) (h2 : p.ul_freq_min ≤ 3600)
    (h3 : 3358 ≤ p.ul_freq_max) (h4 : p.ul_freq_max ≤ 3600)
    (h5 : 1 ≤ p.ul_freq_max - p.ul_freq_min)
    (h6 : 3358 ≤ p.dl_freq_min) (h7 : p.dl_freq_min ≤ 3600)
    (h8 : 3358 ≤ p.dl_freq_max) (h9 : p.dl_freq_max ≤ 3600)
    (h10 : 1 ≤ p.dl_freq_max - p.dl_freq_min) :
    Otalab.checkFrequencyParams p = [] ∧
      ∃ req, Otalab.runProfile p = Except.ok req := by
  have hul : ¬(p.ul_freq_min < 3358 ∨ p.ul_freq_min > 3600 ∨
      p.ul_freq_max < 3358 ∨ p.ul_freq_max > 3600) := by
    push_neg
    exact ⟨h1, h2, h3, h4⟩
  have hulsep : ¬(p.ul_freq_max - p.ul_freq_min < 1) := not_lt.mpr h5
  have hdl : ¬(p.dl_freq_min < 3358 ∨ p.dl_freq_min > 3600 ∨
      p.dl_freq_max < 3358 ∨ p.dl_freq_max > 3600) := by
    push_neg
    exact ⟨h6, h7, h8, h9⟩
  have hdlsep : ¬(p.dl_freq_max - p.dl_freq_min < 1) := not_lt.mpr h10
  have hc : Otalab.checkFrequencyParams p = [] := by
    simp [Otalab.checkFrequencyParams, hul, hulsep, hdl, hdlsep]
  refine ⟨hc, ?_⟩
  unfold Otalab.runProfile
  rw [hc]
  exact ⟨_, rfl⟩

/-- Helper: concrete bounds satisfied by the OTA-lab default frequency
values (3550, 3570, 3580, 3600). -/
theorem otalab_default_bounds :
    ((3358 : ℚ) ≤ 3550) ∧ ((3550 : ℚ) ≤ 3600) ∧ ((3358 : ℚ) ≤ 3570)
      ∧ ((3570 : ℚ) ≤ 3600) ∧ ((1 : ℚ) ≤ 3570 - 3550)
      ∧ ((3358 : ℚ) ≤ 3580) ∧ ((3580 : ℚ) ≤ 3600) ∧ ((3358 : ℚ) ≤ 3600)
      ∧ ((3600 : ℚ) ≤ 3600) ∧ ((1 : ℚ) ≤ 3600 - 3580) := by
  norm_num

/-- Witness for C2 at the default frequency values. -/
theorem otalab_valid_freqs_build_witness :
    Otalab.checkFrequencyParams
        ⟨"d430", ["ota-x310-1"], ["ota-nuc1"], 3550, 3570, 3580, 3600⟩ = [] ∧
      ∃ req, Otalab.runProfile
        ⟨"d430", ["ota-x310-1"], ["ota-nuc1"], 3550, 3570, 3580, 3600⟩ = Except.ok req :=
  otalab_valid_freqs_build _
    otalab_default_bounds.1 otalab_default_bounds.2.1
    otalab_default_bounds.2.2.1 otalab_default_bounds.2.2.2.1
    otalab_default_bounds.2.2.2.2.1 otalab_default_bounds.2.2.2.2.2.1
    otalab_default_bounds.2.2.2.2.2.2.1 otalab_default_bounds.2.2.2.2.2.2.2.1
    otalab_default_bounds.2.2.2.2.2.2.2.2.1 otalab_default_bounds.2.2.2.2.2.2.2.2.2

/-- C3: all four OTA-lab cross-field checks are evaluated independently
before errors are surfaced: each of the four errors is present in the
collected error list exactly when its own check is violated, regardless of
the other checks, and each error names its offending parameter pair. -/
theorem otalab_checks_all_reported (p : Otalab.Params) :
    (Otalab.uplinkBandError ∈ Otalab.checkFrequencyParams p ↔
      (p.ul_freq_min < 3358 ∨ p.ul_freq_min > 3600 ∨
       p.ul_freq_max < 3358 ∨ p.ul_freq_max > 3600)) ∧
    (Otalab.uplinkSepError ∈ Otalab.checkFrequencyParams p ↔
      p.ul_freq_max - p.ul_freq_min < 1) ∧
    (Otalab.downlinkBandError ∈ Otalab.checkFrequencyParams p ↔
      (p.dl_freq_min < 3358 ∨ p.dl_freq_min > 3600 ∨
       p.dl_freq_max < 3358 ∨ p.dl_freq_max > 3600)) ∧
    (Otalab.downlinkSepError ∈ Otalab.checkFrequencyParams p ↔
      p.dl_freq_max - p.dl_freq_min < 1) ∧
    Otalab.uplinkBandError.params = ["ul_freq_min", "ul_freq_max"] ∧
    Otalab.uplinkSepError.params = ["ul_freq_min", "ul_freq_max"] ∧
    Otalab.downlinkBandError.params = ["dl_freq_min", "dl_freq_max"] ∧
    Otalab.downlinkSepError.params = ["dl_freq_min", "dl_freq_max"] := by
  refine ⟨?_, ?_, ?_, ?_, rfl, rfl, rfl, rfl⟩ <;>
    simp [Otalab.checkFrequencyParams, List.mem_append, mem_ite_singleton,
      Otalab.uplinkBandError, Otalab.uplinkSepError,
      Otalab.downlinkBandError, Otalab.downlinkSepError]

/-- C4: whenever at least one OTA-lab frequency check is violated, the script
halts with the collected parameter errors and no request is emitted. -/
theorem otalab_invalid_no_emission (p : Otalab.Params)
    (h : Otalab.checkFrequencyParams p ≠ []) :
    Otalab.runProfile p = Except.error (Otalab.checkFrequencyParams p) := by
  cases hc : Otalab.checkFrequencyParams p with
  | nil => exact absurd hc h
  | cons e rest =>
    unfold Otalab.runProfile
    rw [hc]

/-- Helper: the scenario with uplink bounds 3550 and 3550.5 fails with
exactly the uplink minimum-separation error. -/
theorem otalab_scenario2_check :
    Otalab.checkFrequencyParams ⟨"d430", [], [], 3550, 3550.5, 3580, 3600⟩
      = [Otalab.uplinkSepError] := by
  norm_num [Otalab.checkFrequencyParams]

/-- Witness for C4 at uplink bounds 3550 and 3550.5 (separation 0.5 MHz). -/
theorem otalab_invalid_no_emission_witness :
    Otalab.runProfile ⟨"d430", [], [], 3550, 3550.5, 3580, 3600⟩ =
      Except.error
        (Otalab.checkFrequencyParams ⟨"d430", [], [], 3550, 3550.5, 3580, 3600⟩) :=
  otalab_invalid_no_emission _ (by simp [otalab_scenario2_check])

/-- C9: the OTA-lab frequency checks are inclusive at every boundary: the
collected error list is empty exactly when every bound lies in the closed
interval [3358, 3600] and each separation is at least 1 MHz, so bounds
exactly at 3358 or 3600 and separations exactly 1 pass, as the two concrete
boundary parameter sets illustrate. -/
theorem otalab_boundary_inclusive (p : Otalab.Params) :
    (Otalab.checkFrequencyParams p = [] ↔
      (3358 ≤ p.ul_freq_min ∧ p.ul_freq_min ≤ 3600 ∧
       3358 ≤ p.ul_freq_max ∧ p.ul_freq_max ≤ 3600 ∧
       1 ≤ p.ul_freq_max - p.ul_freq_min ∧
       3358 ≤ p.dl_freq_min ∧ p.dl_freq_min ≤ 3600 ∧
       3358 ≤ p.dl_freq_max ∧ p.dl_freq_max ≤ 3600 ∧
       1 ≤ p.dl_freq_max - p.dl_freq_min)) ∧
    Otalab.checkFrequencyParams ⟨"d430", [], [], 3358, 3600, 3358, 3600⟩ = [] ∧
    Otalab.checkFrequencyParams ⟨"d430", [], [], 3550, 3551, 3599, 3600⟩ = [] := by
  refine ⟨?_, by norm_num [Otalab.checkFrequencyParams],
    by norm_num [Otalab.checkFrequencyParams]⟩
  simp only [Otalab.checkFrequencyParams, List.append_eq_nil,
    ite_singleton_eq_nil, not_or, not_lt, gt_iff_lt]
  tauto

/-- C1 counterexample: the claimed scenario-1 input (uplink 2500 to 2510,
downlink 2620 to 2630) lies outside the OTA-lab band of 3358 to 3600 MHz, so
the script reports the two band errors and emits no request tree at all. -/
theorem otalab_scenario1_rejected :
    Otalab.runProfile ⟨"d430", ["ota-x310-1"], ["ota-nuc1"], 2500, 2510, 2620, 2630⟩
      = Except.error [Otalab.uplinkBandError, Otalab.downlinkBandError] := by
  have hc : Otalab.checkFrequencyParams
      ⟨"d430", ["ota-x310-1"], ["ota-nuc1"], 2500, 2510, 2620, 2630⟩
      = [Otalab.uplinkBandError, Otalab.downlinkBandError] := by
    norm_num [Otalab.checkFrequencyParams]
  unfold Otalab.runProfile
  rw [hc]

/-- C1 amended: with in-band frequencies (uplink 3550 to 3560, downlink 3580
to 3590), one base-station selection and one fixed-endpoint selection, the
OTA-lab script emits a request tree containing exactly one base-station
(compute node, radio, link) triple, one fixed-endpoint node, and exactly the
two spectrum reservations (3550, 3560, 0) and (3580, 3590, 0). -/
theorem otalab_scenario1_amended :
    Otalab.runProfile ⟨"d430", ["ota-x310-1"], ["ota-nuc1"], 3550, 3560, 3580, 3590⟩
      = Except.ok
          { nodes := [Otalab.x310CompNode "d430" "ota-x310-1",
                      Otalab.x310RadioNode "ota-x310-1",
                      Otalab.b210NucNode "ota-nuc1"],
            links := [Otalab.radioLink 0 "ota-x310-1"],
            spectra := [⟨3550, 3560, 0⟩, ⟨3580, 3590, 0⟩] } := by
  have hc : Otalab.checkFrequencyParams
      ⟨"d430", ["ota-x310-1"], ["ota-nuc1"], 3550, 3560, 3580, 3590⟩ = [] := by
    norm_num [Otalab.checkFrequencyParams]
  unfold Otalab.runProfile
  rw [hc]
  rfl

/-- Helper: length of an enumerated list. -/
theorem length_enumFrom_eq {α : Type} (n : Nat) (l : List α) :
    (List.enumFrom n l).length = l.length := by
  induction l generalizing n with
  | nil => rfl
  | cons a rest ih => simp [List.enumFrom, ih]

/-- Helper: the compute nodes among the nodes built by the OTA-lab X310 loop
body are exactly one per selected radio (they are the nodes with no component
id). -/
theorem otalab_x310_comp_nodes (nt : String) (rs : List String) :
    ((rs.flatMap (fun r => [Otalab.x310CompNode nt r, Otalab.x310RadioNode r])).filter
        (fun n => n.component_id.isNone))
      = rs.map (fun r => Otalab.x310CompNode nt r) := by
  induction rs with
  | nil => rfl
  | cons r rest ih =>
    simp only [List.flatMap_cons, List.filter_append, List.map_cons, ← ih]
    rfl

/-- Helper: the radio components among the nodes built by the OTA-lab X310
loop body are exactly one per selected radio (they are the nodes carrying a
component id). -/
theorem otalab_x310_radio_nodes (nt : String) (rs : List String) :
    ((rs.flatMap (fun r => [Otalab.x310CompNode nt r, Otalab.x310RadioNode r])).filter
        (fun n => n.component_id.isSome))
      = rs.map (fun r => Otalab.x310RadioNode r) := by
  induction rs with
  | nil => rfl
  | cons r rest ih =>
    simp only [List.flatMap_cons, List.filter_append, List.map_cons, ← ih]
    rfl

/-- C5: for any ordered list of N base-station (X310) radio selections, the
OTA-lab pairing builder produces exactly N links, N compute nodes and N
radio components, and every produced link connects exactly two endpoints:
the usrp_if interface of the compute node derived from one selected radio
and the radio component derived from the same radio. -/
theorem otalab_x310_pairing (nt : String) (rs : List String) :
    (Otalab.x310Loop nt 0 rs emptyRequest).links.length = rs.length ∧
    ((Otalab.x310Loop nt 0 rs emptyRequest).nodes.filter
        (fun n => n.component_id.isNone)).length = rs.length ∧
    ((Otalab.x310Loop nt 0 rs emptyRequest).nodes.filter
        (fun n => n.component_id.isSome)).length = rs.length ∧
    ∀ l ∈ (Otalab.x310Loop nt 0 rs emptyRequest).links, ∃ r ∈ rs,
      l.members = [LinkMember.iface (mkUsrpIf (r ++ "-comp")),
                   LinkMember.node (r ++ "-radio")] := by
  rw [otalab_x310Loop_eq]
  refine ⟨?_, ?_, ?_, ?_⟩
  · simp [emptyRequest, length_enumFrom_eq]
  · simp [emptyRequest, otalab_x310_comp_nodes]
  · simp [emptyRequest, otalab_x310_radio_nodes]
  · intro l hl
    simp only [emptyRequest, List.nil_append, List.mem_map] at hl
    obtain ⟨p, hp, rfl⟩ := hl
    exact ⟨p.2, snd_mem_of_mem_enumFrom hp, rfl⟩

/-- Witness for C5 at a concrete two-radio selection. -/
theorem otalab_x310_pairing_witness :
    (Otalab.x310Loop "d430" 0 ["ota-x310-1", "ota-x310-2"] emptyRequest).links.length = 2 ∧
    ((Otalab.x310Loop "d430" 0 ["ota-x310-1", "ota-x310-2"] emptyRequest).nodes.filter
        (fun n => n.component_id.isNone)).length = 2 :=
  ⟨(otalab_x310_pairing "d430" ["ota-x310-1", "ota-x310-2"]).1,
   (otalab_x310_pairing "d430" ["ota-x310-1", "ota-x310-2"]).2.1⟩

/-- C6: in both profile variants the compute node of a base-station pair is
named by suffixing the selected radio identifier with -comp, and its usrp_if
interface carries the static address 192.168.40.1 with netmask
255.255.255.0; the address is the same for every compute node the OTA-lab
loop builds, whatever the selected radios. -/
theorem x310_comp_name_and_address (nt tok u pw r : String) (rs : List String) :
    (Otalab.x310CompNode nt r).name = r ++ "-comp" ∧
    (Otalab.x310CompNode nt r).interfaces =
      [⟨"usrp_if", r ++ "-comp", [⟨"192.168.40.1", "255.255.255.0"⟩]⟩] ∧
    (Gen.x310CompNode nt tok u pw r).name = r ++ "-comp" ∧
    (Gen.x310CompNode nt tok u pw r).interfaces =
      [⟨"usrp_if", r ++ "-comp", [⟨"192.168.40.1", "255.255.255.0"⟩]⟩] ∧
    ((Otalab.x310Loop nt 0 rs emptyRequest).nodes.filter
        (fun n => n.component_id.isNone))
      = rs.map (fun x => Otalab.x310CompNode nt x) := by
  refine ⟨rfl, rfl, rfl, rfl, ?_⟩
  rw [otalab_x310Loop_eq]
  simp [emptyRequest, otalab_x310_comp_nodes]

/-- C7: in both profile variants the point-to-point radio link of every
base-station pair has bandwidth 10*1000*1000, i.e. 10 Mb/s, independent of
the enumeration index and of the selected radio. -/
theorem radio_link_bandwidth_fixed (idx : Nat) (r : String) :
    (Otalab.radioLink idx r).bandwidth = 10 * 1000 * 1000 ∧
    (Gen.radioLink idx r).bandwidth = 10 * 1000 * 1000 :=
  ⟨rfl, rfl⟩

/-- C8: both profile builds are deterministic: equal bound parameter values
(including the ordered radio selection lists) give identical emitted
results, node names, action sequences, addresses and spectrum reservations
included. -/
theorem profiles_deterministic (p q : Otalab.Params) (g h : Gen.Params)
    (hpq : p = q) (hgh : g = h) :
    Otalab.runProfile p = Otalab.runProfile q ∧
      Gen.runProfile g = Gen.runProfile h := by
  subst hpq
  subst hgh
  exact ⟨rfl, rfl⟩

/-- Witness for C8 at concrete parameter values. -/
theorem profiles_deterministic_witness :
    Otalab.runProfile ⟨"d430", ["ota-x310-1"], ["ota-nuc1"], 3550, 3570, 3580, 3600⟩ =
      Otalab.runProfile ⟨"d430", ["ota-x310-1"], ["ota-nuc1"], 3550, 3570, 3580, 3600⟩ ∧
    Gen.runProfile ⟨"d740", "", "", "", ["cellsdr1-browning"], ["web"]⟩ =
      Gen.runProfile ⟨"d740", "", "", "", ["cellsdr1-browning"], ["web"]⟩ :=
  profiles_deterministic _ _ _ _ rfl rfl

/-- C10: in the general deployment profile the token, user and password
values are interpolated verbatim, space separated and unquoted, into the
setup.sh command, which is the last boot service of the compute node of
every X310 pair and of every fixed-endpoint node; with the default empty
values the command ends in three space-separated empty arguments. -/
theorem gen_setup_command_verbatim (tok u pw nt r agg : String) :
    (Gen.x310CompNode nt tok u pw r).services.getLast? =
      some ⟨"bash", "/local/repository/bin/setup.sh " ++ tok ++ " " ++ u ++ " " ++ pw⟩ ∧
    (Gen.b210NucNode agg tok u pw).services.getLast? =
      some ⟨"bash", "/local/repository/bin/setup.sh " ++ tok ++ " " ++ u ++ " " ++ pw⟩ ∧
    Gen.setupCommand "" "" "" = "/local/repository/bin/setup.sh   " :=
  ⟨rfl, rfl, rfl⟩

end Powder
